import Mathlib

/-!
Shallow embedding of `inaFaceAnalyzer/inaFaceAnalyzer.py`, the streaming
batch-orchestration pipeline of the inaFaceAnalyzer project, together with
proofs about its orchestration behaviour.

External collaborators (frame iterators, face detectors, the preprocessing
function and the classifier network) live in modules outside the embedded
file; they are modelled as functional parameters bundled in `Collab`, exactly
at the interface `_process_stream` consumes them:

  * `detector frame verbose` models `detector(frame, self.verbose)` and
    returns the ordered list of detections of one frame;
  * `preprocess frame d sq scale` models
    `preprocess_face(frame, detection, self.bbox2square, self.bbox_scale,
    self.face_alignment, oshape, False)` and returns the normalized face
    image together with the finalized bounding box (the alignment component
    and output shape are fixed per analyzer and folded into the function);
  * `classify batch verbose` models `self.classifier(batch, verbose=...)`
    and returns one result row per batch element when the classifier honours
    its contract;
  * `detectorFields` models `detector.output_type._fields` and
    `classifierCols` models `self.classifier.output_cols`.

Pandas tables are modelled by their column-name list together with the three
column groups `_process_stream` concatenates horizontally (`df1` = frame
identifiers, `df2` = detection records, `df3` = classifier rows).
-/

namespace InaFaceAnalyzer

/-- A detection record emitted by a face detector. Detectors emit named
tuples with a `bbox` field plus further fields (confidence, eye coordinates,
face identifier, ...) abstracted as `rest`; `detection._replace(bbox=...)`
becomes a structure update. -/
structure Detection (β ρ : Type) where
  bbox : β
  rest : ρ
  deriving DecidableEq

/-- The classifier attributes read by `FaceAnalyzer.__init__`:
`bbox2square`, `bbox_scale` and `output_cols` (the declared output column
names). -/
structure FaceClassifierProps where
  bbox2square : Bool
  bbox_scale : ℚ
  output_cols : List String
  deriving DecidableEq

/-- The analyzer attributes stored by `FaceAnalyzer.__init__` and read by
`_process_stream`. -/
structure AnalyzerCfg where
  bbox2square : Bool
  bbox_scale : ℚ
  batch_len : ℕ
  verbose : Bool
  deriving DecidableEq

/-- Attribute wiring of `FaceAnalyzer.__init__`: `self.bbox2square` and
`self.bbox_scale` are copied from the classifier; `batch_len` and `verbose`
are stored after validation. -/
def FaceAnalyzer_init (cls : FaceClassifierProps) (batch_len : ℕ) (verbose : Bool) :
    AnalyzerCfg :=
  { bbox2square := cls.bbox2square
    bbox_scale := cls.bbox_scale
    batch_len := batch_len
    verbose := verbose }

/-- Values crossing the Python boundary in `FaceAnalyzer.__init__`'s
argument validation. Python's `bool` is a subclass of `int`, and
`isinstance` reflects that. -/
inductive PyVal where
  | int (n : ℤ)
  | bool (b : Bool)
  | str (s : String)
  | pynone
  deriving DecidableEq

/-- `isinstance(v, bool)`. -/
def PyVal.isinstance_bool : PyVal → Bool
  | .bool _ => true
  | _ => false

/-- `isinstance(v, int)`: true for `int` and for `bool` (a subclass of
`int` in Python). -/
def PyVal.isinstance_int : PyVal → Bool
  | .int _ => true
  | .bool _ => true
  | _ => false

/-- `v > 0` for the values that can reach the comparison in
`assert isinstance(batch_len, int) and batch_len > 0` (short-circuit
evaluation guards the comparison behind `isinstance`, so only `int` and
`bool` values are compared; `True == 1` and `False == 0`). -/
def PyVal.gt_zero : PyVal → Bool
  | .int n => decide (0 < n)
  | .bool b => b
  | _ => false

/-- The two `assert` statements of `FaceAnalyzer.__init__`:
`assert isinstance(verbose, bool)` then
`assert isinstance(batch_len, int) and batch_len > 0`. On success the pair
`(self.batch_len, self.verbose)` of stored attribute values is returned; a
failed assertion is `none`. -/
def FaceAnalyzer_checkArgs (batch_len verbose : PyVal) : Option (PyVal × PyVal) :=
  if verbose.isinstance_bool then
    if batch_len.isinstance_int && batch_len.gt_zero then
      some (batch_len, verbose)
    else
      none
  else
    none

section Pipeline

variable {ι Fr β ρ Img Row : Type}

/-- The external collaborators consumed by `_process_stream`, at exactly the
interface the source uses (see the module docstring above). -/
structure Collab (ι Fr β ρ Img Row : Type) where
  detector : Fr → Bool → List (Detection β ρ)
  preprocess : Fr → Detection β ρ → Bool → ℚ → Img × β
  classify : List Img → Bool → List Row
  detectorFields : List String
  classifierCols : List String

/-- The three local accumulators of `_process_stream`: `lbatch_img` (the
pending batch buffer), `linfo` (per-entry frame/detection metadata) and
`ldf` (classifier partial outputs, one entry per classifier invocation). -/
structure StreamState (ι β ρ Img Row : Type) where
  lbatch : List Img
  linfo : List (ι × Detection β ρ)
  ldf : List (List Row)
  deriving DecidableEq

/-- The `while len(lbatch_img) > self.batch_len` loop of `_process_stream`,
written with an explicit iteration bound (`fuel`). Each iteration classifies
the first `bl` pending images and drops them from the buffer. Since each
iteration removes `bl ≥ 1` images, a fuel of `lb.length` always suffices
(see `flushLoop`); the source loop likewise terminates for every positive
`batch_len`, which the constructor enforces. -/
def flushAux (bl : ℕ) (cls : List Img → List Row) :
    ℕ → List Img → List (List Row) → List Img × List (List Row)
  | 0, lb, ldf => (lb, ldf)
  | fuel + 1, lb, ldf =>
    if bl < lb.length then
      flushAux bl cls fuel (lb.drop bl) (ldf ++ [cls (lb.take bl)])
    else
      (lb, ldf)

/-- The flush loop with its sufficient fuel. -/
def flushLoop (bl : ℕ) (cls : List Img → List Row) (lb : List Img)
    (ldf : List (List Row)) : List Img × List (List Row) :=
  flushAux bl cls lb.length lb ldf

/-- The inner `for detection in detector(frame, self.verbose)` loop of
`_process_stream`: preprocess each detection, append
`[iframe, detection._replace(bbox=tuple(bbox))]` to `linfo` and the
preprocessed face image to `lbatch_img`. -/
def frameAccum (cfg : AnalyzerCfg) (c : Collab ι Fr β ρ Img Row)
    (st : StreamState ι β ρ Img Row) (p : ι × Fr) : StreamState ι β ρ Img Row :=
  (c.detector p.2 cfg.verbose).foldl
    (fun st d =>
      let pr := c.preprocess p.2 d cfg.bbox2square cfg.bbox_scale
      { st with
        linfo := st.linfo ++ [(p.1, { d with bbox := pr.2 })]
        lbatch := st.lbatch ++ [pr.1] })
    st

/-- One iteration of the outer `for iframe, frame in stream_iterator` loop:
accumulate the frame's detections, then run the batch flush loop. -/
def processFrame (cfg : AnalyzerCfg) (c : Collab ι Fr β ρ Img Row)
    (st : StreamState ι β ρ Img Row) (p : ι × Fr) : StreamState ι β ρ Img Row :=
  let st1 := frameAccum cfg c st p
  let fl := flushLoop cfg.batch_len (fun l => c.classify l cfg.verbose) st1.lbatch st1.ldf
  { lbatch := fl.1, linfo := st1.linfo, ldf := fl.2 }

/-- The whole streaming phase of `_process_stream`, starting from empty
accumulators. -/
def streamFold (cfg : AnalyzerCfg) (c : Collab ι Fr β ρ Img Row)
    (stream : List (ι × Fr)) : StreamState ι β ρ Img Row :=
  stream.foldl (processFrame cfg c) ⟨[], [], []⟩

/-- The post-stream remainder flush:
`if len(lbatch_img) > 0: ldf.append(classifier(lbatch_img, ...))`. -/
def finalFlush (cfg : AnalyzerCfg) (c : Collab ι Fr β ρ Img Row)
    (st : StreamState ι β ρ Img Row) : StreamState ι β ρ Img Row :=
  if 0 < st.lbatch.length then
    { st with ldf := st.ldf ++ [c.classify st.lbatch cfg.verbose], lbatch := [] }
  else
    st

/-- The result table: its column names and the three horizontally
concatenated groups `df1` (frame identifiers), `df2` (detection records,
whose `eyes` column is dropped from the output schema) and `df3`
(concatenated classifier rows). -/
structure Table (ι β ρ Row : Type) where
  columns : List String
  frames : List ι
  dets : List (Detection β ρ)
  rows : List Row
  deriving DecidableEq

/-- Result assembly of `_process_stream`: if no classifier invocation
happened (`len(ldf) == 0`), return an empty table with columns
`['frame'] + detector.output_type._fields + classifier.output_cols`
(note: no `eyes` drop on this path); otherwise build `df1`, `df2` (dropping
the `eyes` column when present) and `df3 = concat(ldf)` and concatenate
them horizontally. -/
def assemble (c : Collab ι Fr β ρ Img Row) (st : StreamState ι β ρ Img Row) :
    Table ι β ρ Row :=
  if st.ldf.length = 0 then
    { columns := "frame" :: c.detectorFields ++ c.classifierCols
      frames := []
      dets := []
      rows := [] }
  else
    { columns := "frame" :: c.detectorFields.filter (fun x => x ≠ "eyes") ++ c.classifierCols
      frames := st.linfo.map Prod.fst
      dets := st.linfo.map Prod.snd
      rows := st.ldf.flatten }

/-- `FaceAnalyzer._process_stream`. -/
def processStream (cfg : AnalyzerCfg) (c : Collab ι Fr β ρ Img Row)
    (stream : List (ι × Fr)) : Table ι β ρ Row :=
  assemble c (finalFlush cfg c (streamFold cfg c stream))

/-- `_process_stream` as a state-passing method on the analyzer attributes:
the source method contains no attribute assignment (it only reads
`self.batch_len`, `self.verbose`, `self.bbox2square`, `self.bbox_scale`,
`self.classifier` and `self.face_alignment`), so its faithful translation
returns the receiver's attribute record unchanged next to the table. -/
def processStreamSt (cfg : AnalyzerCfg) (c : Collab ι Fr β ρ Img Row)
    (stream : List (ι × Fr)) : Table ι β ρ Row × AnalyzerCfg :=
  (processStream cfg c stream, cfg)

/-- The finalized metadata `(iframe, detection._replace(bbox=...))` entries
contributed by one frame, in the detector's emission order. -/
def frameInfo (cfg : AnalyzerCfg) (c : Collab ι Fr β ρ Img Row) (p : ι × Fr) :
    List (ι × Detection β ρ) :=
  (c.detector p.2 cfg.verbose).map
    (fun d => (p.1, { d with bbox := (c.preprocess p.2 d cfg.bbox2square cfg.bbox_scale).2 }))

/-- The preprocessed face images contributed by one frame, in the detector's
emission order. -/
def frameImgs (cfg : AnalyzerCfg) (c : Collab ι Fr β ρ Img Row) (p : ι × Fr) :
    List Img :=
  (c.detector p.2 cfg.verbose).map
    (fun d => (c.preprocess p.2 d cfg.bbox2square cfg.bbox_scale).1)

/-- All metadata entries of a stream, in discovery order (frame order, then
within-frame emission order). -/
def allInfo (cfg : AnalyzerCfg) (c : Collab ι Fr β ρ Img Row)
    (stream : List (ι × Fr)) : List (ι × Detection β ρ) :=
  stream.flatMap (frameInfo cfg c)

/-- All preprocessed face images of a stream, in discovery order. -/
def allImgs (cfg : AnalyzerCfg) (c : Collab ι Fr β ρ Img Row)
    (stream : List (ι × Fr)) : List Img :=
  stream.flatMap (frameImgs cfg c)

/-- Batch-independent description of the `_process_stream` result for a
classifier that maps each image to one row via `f`, against which the
batched implementation is compared. Note that `batch_len` is not consulted. -/
def specTable (cfg : AnalyzerCfg) (c : Collab ι Fr β ρ Img Row) (f : Img → Row)
    (stream : List (ι × Fr)) : Table ι β ρ Row :=
  if (allInfo cfg c stream).length = 0 then
    { columns := "frame" :: c.detectorFields ++ c.classifierCols
      frames := []
      dets := []
      rows := [] }
  else
    { columns := "frame" :: c.detectorFields.filter (fun x => x ≠ "eyes") ++ c.classifierCols
      frames := (allInfo cfg c stream).map Prod.fst
      dets := (allInfo cfg c stream).map Prod.snd
      rows := (allImgs cfg c stream).map f }

/-- The argument of `ImageAnalyzer.__call__`: either a single path string or
a list of path strings. -/
inductive ImgPaths where
  | single (p : String)
  | many (l : List String)

/-- `ImageAnalyzer.__call__`: a single string is wrapped into a one-element
list before building the image stream; `image_iterator` models
`opencv_utils.image_iterator` (frame identifier = path string). -/
def ImageAnalyzer_call (cfg : AnalyzerCfg) (c : Collab String Fr β ρ Img Row)
    (image_iterator : List String → Bool → List (String × Fr)) :
    ImgPaths → Table String β ρ Row
  | .single p => processStream cfg c (image_iterator [p] cfg.verbose)
  | .many l => processStream cfg c (image_iterator l cfg.verbose)

/-- `VideoPrecomputedDetection.__init__`: `super().__init__` wires the
classifier's `bbox_scale`/`bbox2square` into the analyzer attributes
(with the default `batch_len=32`), after which a non-`None` `bbox_scale`
or `bbox2square` argument overrides the corresponding attribute. -/
def VideoPrecomputedDetection_init (cls : FaceClassifierProps) (verbose : Bool)
    (bbox_scale : Option ℚ) (bbox2square : Option Bool) : AnalyzerCfg :=
  let cfg := FaceAnalyzer_init cls 32 verbose
  let cfg1 :=
    match bbox_scale with
    | some s => { cfg with bbox_scale := s }
    | none => cfg
  match bbox2square with
  | some b => { cfg1 with bbox2square := b }
  | none => cfg1

/-- Modelled from the spec: `PrecomputedDetector` (defined in
`face_detector.py`, which is absent from `src/`) replays a caller-supplied
list of per-frame detection lists in lockstep with frame order, consuming
exactly one list entry per frame processed; invoking it once the list is
exhausted is an error (the frames cannot be served). This function pairs
each stream frame with its consumed entry and returns the unconsumed
remainder of the list. -/
def consumeDetections : List (List (Detection β ρ)) → List (ι × Fr) →
    Except String (List ((ι × Fr) × List (Detection β ρ)) × List (List (Detection β ρ)))
  | rest, [] => .ok ([], rest)
  | [], _ :: _ => .error "pop from empty detection list"
  | dets :: rest, p :: ps =>
    match consumeDetections rest ps with
    | .error e => .error e
    | .ok (pairs, rem) => .ok ((p, dets) :: pairs, rem)

/-- The collaborators seen by `_process_stream` when the detector is a
`PrecomputedDetector`: each frame arrives already paired with its
precomputed detections, and the detector simply emits them. -/
def precompCollab (c : Collab ι Fr β ρ Img Row) :
    Collab ι (Fr × List (Detection β ρ)) β ρ Img Row :=
  { detector := fun fr _ => fr.2
    preprocess := fun fr d sq sc => c.preprocess fr.1 d sq sc
    classify := c.classify
    detectorFields := c.detectorFields
    classifierCols := c.classifierCols }

/-- `VideoPrecomputedDetection.__call__`: run `_process_stream` with a
`PrecomputedDetector` over the supplied per-frame bounding-box list, then
`assert len(detector.lbbox) == 0` — the post-condition that the list was
fully consumed. A failure anywhere (list exhausted mid-stream, or entries
left over at the end) yields an error and no table. -/
def VideoPrecomputedDetection_call (cfg : AnalyzerCfg) (c : Collab ι Fr β ρ Img Row)
    (lbbox : List (List (Detection β ρ))) (stream : List (ι × Fr)) :
    Except String (Table ι β ρ Row) :=
  match consumeDetections lbbox stream with
  | .error e => .error e
  | .ok (pairs, rem) =>
    let df := processStream cfg (precompCollab c) (pairs.map (fun q => (q.1.1, (q.1.2, q.2))))
    if rem.length = 0 then
      .ok df
    else
      .error "the detection list is longer than the number of processed frames"

/-- Whether an `Except` computation succeeded. -/
def exceptOk {ε α : Type} : Except ε α → Bool
  | .ok _ => true
  | .error _ => false

end Pipeline

/-! ### Concrete test fixtures

Small executable instantiations of the pipeline, used to evaluate the
embedded code on concrete inputs. Frame identifiers, frames, bounding
boxes, auxiliary detection payloads, images and classifier rows are all
numbers; the stub classifier returns its input batch unchanged (one row
per image). -/

/-- Detector of the 3-frame example scenario: frame 1 yields no detection,
frame 2 yields two detections, frame 3 yields one. -/
def detEx : ℕ → List (Detection ℕ ℕ)
  | 2 => [⟨20, 0⟩, ⟨21, 1⟩]
  | 3 => [⟨30, 0⟩]
  | _ => []

/-- Collaborators of the 3-frame example scenario. -/
def collabEx : Collab ℕ ℕ ℕ ℕ ℕ ℕ :=
  { detector := fun fr _ => detEx fr
    preprocess := fun _ d _ _ => (d.bbox, d.bbox)
    classify := fun l _ => l
    detectorFields := ["bbox", "detect_conf"]
    classifierCols := ["sex_label"] }

/-- Analyzer attributes of the 3-frame example scenario (`batch_len = 2`). -/
def cfgEx : AnalyzerCfg := ⟨false, 1, 2, false⟩

/-- The 3-frame example stream (frame identifier = frame content). -/
def streamEx : List (ℕ × ℕ) := [(1, 1), (2, 2), (3, 3)]

/-- A detector that declares an `eyes` output field and finds no face
anywhere. -/
def collabEyes : Collab ℕ ℕ ℕ ℕ ℕ ℕ :=
  { detector := fun _ _ => []
    preprocess := fun _ d _ _ => (d.bbox, d.bbox)
    classify := fun l _ => l
    detectorFields := ["bbox", "detect_conf", "eyes"]
    classifierCols := ["sex_label"] }

/-- Default analyzer attributes used with `collabEyes`. -/
def cfgEyes : AnalyzerCfg := ⟨false, 1, 32, false⟩

/-- A one-frame stream for the zero-detection scenario. -/
def streamEyes : List (ℕ × ℕ) := [(0, 7)]

/-- A classifier whose declared preprocessing demands squarification and a
bounding-box scale of 2. -/
def clsSq : FaceClassifierProps := ⟨true, 2, ["sex_label"]⟩

/-- `VideoPrecomputedDetection` attributes constructed with default
arguments on top of `clsSq`. -/
def cfgSq : AnalyzerCfg := VideoPrecomputedDetection_init clsSq false none none

/-- Collaborators whose preprocessing records the squarification flag and
scale factor it was invoked with, so the produced rows expose them. -/
def collabSq : Collab ℕ ℕ ℕ ℕ (Bool × ℚ) (Bool × ℚ) :=
  { detector := fun _ _ => [⟨5, 0⟩]
    preprocess := fun _ _ sq sc => ((sq, sc), 5)
    classify := fun l _ => l
    detectorFields := ["bbox"]
    classifierCols := ["sex_label"] }

/-- A one-frame, one-detection stream for the squarification scenario. -/
def streamSq : List (ℕ × ℕ) := [(0, 0)]

/-! ### Helper lemmas -/

section PipelineLemmas

variable {ι Fr β ρ Img Row : Type}

/-- The per-frame detection loop appends the frame's metadata entries and
preprocessed images, in emission order, and leaves `ldf` alone. -/
theorem frameAccum_spec (cfg : AnalyzerCfg) (c : Collab ι Fr β ρ Img Row)
    (st : StreamState ι β ρ Img Row) (p : ι × Fr) :
    frameAccum cfg c st p =
      { lbatch := st.lbatch ++ frameImgs cfg c p
        linfo := st.linfo ++ frameInfo cfg c p
        ldf := st.ldf } := by
  unfold frameAccum frameImgs frameInfo
  generalize c.detector p.2 cfg.verbose = l
  induction l generalizing st with
  | nil => simp
  | cons d t ih =>
    simp only [List.foldl_cons, List.map_cons]
    rw [ih]
    simp [List.append_assoc]

/-- When every batch classifies to the pointwise image of `f`, the flush
loop preserves `flatten ldf ++ map f lbatch`, for any fuel. -/
theorem flushAux_join (bl : ℕ) (cls : List Img → List Row) (f : Img → Row)
    (hmap : ∀ l, cls l = l.map f) :
    ∀ (fuel : ℕ) (lb : List Img) (ldf : List (List Row)),
      (flushAux bl cls fuel lb ldf).2.flatten ++ (flushAux bl cls fuel lb ldf).1.map f =
        ldf.flatten ++ lb.map f := by
  intro fuel
  induction fuel with
  | zero => intro lb ldf; simp [flushAux]
  | succ n ih =>
    intro lb ldf
    by_cases hc : bl < lb.length
    · simp only [flushAux, if_pos hc]
      rw [ih]
      simp only [List.flatten_append, List.flatten, hmap, List.append_nil, List.append_assoc]
      rw [← List.map_append, List.take_append_drop]
    · simp only [flushAux, if_neg hc]

/-- When the classifier returns one row per image, the flush loop preserves
the total row count `length (flatten ldf) + length lbatch`, for any fuel. -/
theorem flushAux_len (bl : ℕ) (cls : List Img → List Row)
    (hlen : ∀ l, (cls l).length = l.length) :
    ∀ (fuel : ℕ) (lb : List Img) (ldf : List (List Row)),
      (flushAux bl cls fuel lb ldf).2.flatten.length + (flushAux bl cls fuel lb ldf).1.length =
        ldf.flatten.length + lb.length := by
  intro fuel
  induction fuel with
  | zero => intro lb ldf; simp [flushAux]
  | succ n ih =>
    intro lb ldf
    by_cases hc : bl < lb.length
    · simp only [flushAux, if_pos hc]
      rw [ih]
      simp only [List.flatten_append, List.flatten, List.length_append, List.append_nil,
        hlen, List.length_take, List.length_drop]
      omega
    · simp only [flushAux, if_neg hc]

/-- A buffer of at most `batch_len` entries is not flushed at all. -/
theorem flushAux_of_le (bl : ℕ) (cls : List Img → List Row) (fuel : ℕ)
    (lb : List Img) (ldf : List (List Row)) (h : lb.length ≤ bl) :
    flushAux bl cls fuel lb ldf = (lb, ldf) := by
  cases fuel with
  | zero => rfl
  | succ n => simp only [flushAux, if_neg (Nat.not_lt.mpr h)]

/-- With positive `batch_len` and enough fuel, the flush loop leaves at most
`batch_len` pending images. -/
theorem flushAux_length_le (bl : ℕ) (hb : 0 < bl) (cls : List Img → List Row) :
    ∀ (fuel : ℕ) (lb : List Img) (ldf : List (List Row)), lb.length ≤ fuel + bl →
      (flushAux bl cls fuel lb ldf).1.length ≤ bl := by
  intro fuel
  induction fuel with
  | zero => intro lb ldf h; simpa [flushAux] using h
  | succ n ih =>
    intro lb ldf h
    by_cases hc : bl < lb.length
    · simp only [flushAux, if_pos hc]
      apply ih
      rw [List.length_drop]
      omega
    · simp only [flushAux, if_neg hc]
      omega

/-- Any two sufficient fuels make the flush loop agree (the loop is
fuel-insensitive once the fuel covers the buffer length). -/
theorem flushAux_congr (bl : ℕ) (hb : 0 < bl) (cls : List Img → List Row) :
    ∀ (fuel1 fuel2 : ℕ) (lb : List Img) (ldf : List (List Row)),
      lb.length ≤ fuel1 → lb.length ≤ fuel2 →
      flushAux bl cls fuel1 lb ldf = flushAux bl cls fuel2 lb ldf := by
  intro fuel1
  induction fuel1 with
  | zero =>
    intro fuel2 lb ldf h1 h2
    have hnil : lb = [] := List.length_eq_zero.mp (Nat.le_zero.mp h1)
    subst hnil
    cases fuel2 with
    | zero => rfl
    | succ m => simp [flushAux]
  | succ n ih =>
    intro fuel2 lb ldf h1 h2
    cases fuel2 with
    | zero =>
      have hnil : lb = [] := List.length_eq_zero.mp (Nat.le_zero.mp h2)
      subst hnil
      simp [flushAux]
    | succ m =>
      by_cases hc : bl < lb.length
      · simp only [flushAux, if_pos hc]
        apply ih
        · rw [List.length_drop]; omega
        · rw [List.length_drop]; omega
      · simp only [flushAux, if_neg hc]

/-- `flushLoop` on a buffer of at most `batch_len` entries is the identity:
no flush happens below the strict threshold. -/
theorem flushLoop_of_le (bl : ℕ) (cls : List Img → List Row) (lb : List Img)
    (ldf : List (List Row)) (h : lb.length ≤ bl) :
    flushLoop bl cls lb ldf = (lb, ldf) :=
  flushAux_of_le bl cls lb.length lb ldf h

/-- One iteration of `flushLoop` above the threshold: classify exactly the
first `batch_len` images, in FIFO order, and continue on the remainder. -/
theorem flushLoop_step (bl : ℕ) (hb : 0 < bl) (cls : List Img → List Row)
    (lb : List Img) (ldf : List (List Row)) (h : bl < lb.length) :
    flushLoop bl cls lb ldf =
      flushLoop bl cls (lb.drop bl) (ldf ++ [cls (lb.take bl)]) := by
  unfold flushLoop
  obtain ⟨n, hn⟩ : ∃ n, lb.length = n + 1 := ⟨lb.length - 1, by omega⟩
  rw [hn]
  simp only [flushAux, if_pos h]
  apply flushAux_congr bl hb
  · rw [List.length_drop]; omega
  · exact le_rfl

/-- After `flushLoop`, at most `batch_len` images remain pending. -/
theorem flushLoop_length_le (bl : ℕ) (hb : 0 < bl) (cls : List Img → List Row)
    (lb : List Img) (ldf : List (List Row)) :
    (flushLoop bl cls lb ldf).1.length ≤ bl :=
  flushAux_length_le bl hb cls lb.length lb ldf (by omega)

/-- `flushAux_join`, specialised to `flushLoop`. -/
theorem flushLoop_join (bl : ℕ) (cls : List Img → List Row) (f : Img → Row)
    (hmap : ∀ l, cls l = l.map f) (lb : List Img) (ldf : List (List Row)) :
    (flushLoop bl cls lb ldf).2.flatten ++ (flushLoop bl cls lb ldf).1.map f =
      ldf.flatten ++ lb.map f :=
  flushAux_join bl cls f hmap lb.length lb ldf

/-- `flushAux_len`, specialised to `flushLoop`. -/
theorem flushLoop_len (bl : ℕ) (cls : List Img → List Row)
    (hlen : ∀ l, (cls l).length = l.length) (lb : List Img) (ldf : List (List Row)) :
    (flushLoop bl cls lb ldf).2.flatten.length + (flushLoop bl cls lb ldf).1.length =
      ldf.flatten.length + lb.length :=
  flushAux_len bl cls hlen lb.length lb ldf

/-- `allInfo` distributes over a leading frame. -/
theorem allInfo_cons (cfg : AnalyzerCfg) (c : Collab ι Fr β ρ Img Row)
    (p : ι × Fr) (t : List (ι × Fr)) :
    allInfo cfg c (p :: t) = frameInfo cfg c p ++ allInfo cfg c t := by
  simp [allInfo]

/-- `allImgs` distributes over a leading frame. -/
theorem allImgs_cons (cfg : AnalyzerCfg) (c : Collab ι Fr β ρ Img Row)
    (p : ι × Fr) (t : List (ι × Fr)) :
    allImgs cfg c (p :: t) = frameImgs cfg c p ++ allImgs cfg c t := by
  simp [allImgs]

/-- There are as many preprocessed images as metadata entries. -/
theorem allImgs_length (cfg : AnalyzerCfg) (c : Collab ι Fr β ρ Img Row)
    (s : List (ι × Fr)) :
    (allImgs cfg c s).length = (allInfo cfg c s).length := by
  induction s with
  | nil => rfl
  | cons p t ih =>
    rw [allImgs_cons, allInfo_cons]
    simp only [List.length_append, ih, frameImgs, frameInfo, List.length_map]

/-- The metadata list built by the streaming phase is exactly the
discovery-order metadata of the stream, independently of any flushing. -/
theorem foldl_linfo (cfg : AnalyzerCfg) (c : Collab ι Fr β ρ Img Row) :
    ∀ (s : List (ι × Fr)) (st : StreamState ι β ρ Img Row),
      (s.foldl (processFrame cfg c) st).linfo = st.linfo ++ allInfo cfg c s := by
  intro s
  induction s with
  | nil => intro st; simp [allInfo]
  | cons p t ih =>
    intro st
    simp only [List.foldl_cons]
    rw [ih]
    have h1 : (processFrame cfg c st p).linfo = st.linfo ++ frameInfo cfg c p := by
      simp [processFrame, frameAccum_spec]
    rw [h1, allInfo_cons, List.append_assoc]

/-- With a pointwise classifier, the streaming phase preserves
`flatten ldf ++ map f lbatch` up to the discovered images. -/
theorem foldl_join (cfg : AnalyzerCfg) (c : Collab ι Fr β ρ Img Row) (f : Img → Row)
    (hmap : ∀ l, c.classify l cfg.verbose = l.map f) :
    ∀ (s : List (ι × Fr)) (st : StreamState ι β ρ Img Row),
      (s.foldl (processFrame cfg c) st).ldf.flatten ++
          (s.foldl (processFrame cfg c) st).lbatch.map f =
        st.ldf.flatten ++ st.lbatch.map f ++ (allImgs cfg c s).map f := by
  intro s
  induction s with
  | nil => intro st; simp [allImgs]
  | cons p t ih =>
    intro st
    simp only [List.foldl_cons]
    rw [ih]
    have h1 : (processFrame cfg c st p).ldf.flatten ++ (processFrame cfg c st p).lbatch.map f =
        st.ldf.flatten ++ st.lbatch.map f ++ (frameImgs cfg c p).map f := by
      show (flushLoop cfg.batch_len (fun l => c.classify l cfg.verbose)
              (frameAccum cfg c st p).lbatch (frameAccum cfg c st p).ldf).2.flatten ++
            (flushLoop cfg.batch_len (fun l => c.classify l cfg.verbose)
              (frameAccum cfg c st p).lbatch (frameAccum cfg c st p).ldf).1.map f = _
      rw [flushLoop_join cfg.batch_len _ f hmap]
      rw [frameAccum_spec]
      simp [List.append_assoc]
    rw [h1, allImgs_cons]
    simp [List.append_assoc]

/-- With a row-count-preserving classifier, the streaming phase preserves
the total row count up to the discovered images. -/
theorem foldl_len (cfg : AnalyzerCfg) (c : Collab ι Fr β ρ Img Row)
    (hlen : ∀ l, (c.classify l cfg.verbose).length = l.length) :
    ∀ (s : List (ι × Fr)) (st : StreamState ι β ρ Img Row),
      (s.foldl (processFrame cfg c) st).ldf.flatten.length +
          (s.foldl (processFrame cfg c) st).lbatch.length =
        st.ldf.flatten.length + st.lbatch.length + (allImgs cfg c s).length := by
  intro s
  induction s with
  | nil => intro st; simp [allImgs]
  | cons p t ih =>
    intro st
    simp only [List.foldl_cons]
    rw [ih]
    have h1 : (processFrame cfg c st p).ldf.flatten.length +
          (processFrame cfg c st p).lbatch.length =
        st.ldf.flatten.length + st.lbatch.length + (frameImgs cfg c p).length := by
      show (flushLoop cfg.batch_len (fun l => c.classify l cfg.verbose)
              (frameAccum cfg c st p).lbatch (frameAccum cfg c st p).ldf).2.flatten.length +
            (flushLoop cfg.batch_len (fun l => c.classify l cfg.verbose)
              (frameAccum cfg c st p).lbatch (frameAccum cfg c st p).ldf).1.length = _
      rw [flushLoop_len cfg.batch_len _ hlen]
      rw [frameAccum_spec]
      simp
      omega
    rw [h1, allImgs_cons]
    simp only [List.length_append]
    omega

/-- After every full frame iteration the pending buffer holds at most
`batch_len` images. -/
theorem foldl_lbatch_le (cfg : AnalyzerCfg) (c : Collab ι Fr β ρ Img Row)
    (hb : 0 < cfg.batch_len) :
    ∀ (s : List (ι × Fr)) (st : StreamState ι β ρ Img Row),
      st.lbatch.length ≤ cfg.batch_len →
      (s.foldl (processFrame cfg c) st).lbatch.length ≤ cfg.batch_len := by
  intro s
  induction s with
  | nil => intro st h; exact h
  | cons p t ih =>
    intro st _
    simp only [List.foldl_cons]
    exact ih _ (flushLoop_length_le cfg.batch_len hb _ _ _)

/-- `streamFold` builds exactly the discovery-order metadata list. -/
theorem streamFold_linfo (cfg : AnalyzerCfg) (c : Collab ι Fr β ρ Img Row)
    (s : List (ι × Fr)) :
    (streamFold cfg c s).linfo = allInfo cfg c s := by
  unfold streamFold
  rw [foldl_linfo]
  rfl

/-- `streamFold` with a pointwise classifier: already-flushed rows plus
still-pending images account for all discovered images. -/
theorem streamFold_join (cfg : AnalyzerCfg) (c : Collab ι Fr β ρ Img Row) (f : Img → Row)
    (hmap : ∀ l, c.classify l cfg.verbose = l.map f) (s : List (ι × Fr)) :
    (streamFold cfg c s).ldf.flatten ++ (streamFold cfg c s).lbatch.map f =
      (allImgs cfg c s).map f := by
  unfold streamFold
  rw [foldl_join cfg c f hmap]
  rfl

/-- `streamFold` with a row-count-preserving classifier: flushed row count
plus pending image count equals the number of discovered images. -/
theorem streamFold_len (cfg : AnalyzerCfg) (c : Collab ι Fr β ρ Img Row)
    (hlen : ∀ l, (c.classify l cfg.verbose).length = l.length) (s : List (ι × Fr)) :
    (streamFold cfg c s).ldf.flatten.length + (streamFold cfg c s).lbatch.length =
      (allImgs cfg c s).length := by
  unfold streamFold
  rw [foldl_len cfg c hlen]
  simp

/-- After the streaming phase the pending buffer holds at most `batch_len`
images. -/
theorem streamFold_lbatch_le (cfg : AnalyzerCfg) (c : Collab ι Fr β ρ Img Row)
    (hb : 0 < cfg.batch_len) (s : List (ι × Fr)) :
    (streamFold cfg c s).lbatch.length ≤ cfg.batch_len :=
  foldl_lbatch_le cfg c hb s ⟨[], [], []⟩ (Nat.zero_le _)

/-- A stream in which every frame has zero detections leaves the
accumulators empty: nothing is buffered, recorded or classified. -/
theorem streamFold_no_det (cfg : AnalyzerCfg) (c : Collab ι Fr β ρ Img Row)
    (s : List (ι × Fr)) (h : ∀ p ∈ s, c.detector p.2 cfg.verbose = []) :
    streamFold cfg c s = ⟨[], [], []⟩ := by
  unfold streamFold
  induction s with
  | nil => rfl
  | cons p t ih =>
    simp only [List.foldl_cons]
    have hd : c.detector p.2 cfg.verbose = [] := h p (List.mem_cons_self p t)
    have h1 : processFrame cfg c ⟨[], [], []⟩ p = ⟨[], [], []⟩ := by
      simp [processFrame, frameAccum, hd, flushLoop, flushAux]
    rw [h1]
    exact ih (fun q hq => h q (List.mem_cons_of_mem p hq))

/-- If the discovery-order metadata is empty, every frame of the stream had
zero detections. -/
theorem no_det_of_allInfo_nil (cfg : AnalyzerCfg) (c : Collab ι Fr β ρ Img Row)
    (s : List (ι × Fr)) (h : allInfo cfg c s = []) :
    ∀ p ∈ s, c.detector p.2 cfg.verbose = [] := by
  induction s with
  | nil => intro p hp; cases hp
  | cons p t ih =>
    rw [allInfo_cons] at h
    obtain ⟨h1, h2⟩ := List.append_eq_nil.mp h
    intro q hq
    rcases List.mem_cons.mp hq with hq | hq
    · subst hq
      exact List.map_eq_nil_iff.mp h1
    · exact ih h2 q hq

/-- For any positive `batch_len` and any classifier acting as the pointwise
image of `f`, `_process_stream` computes the batch-independent `specTable`:
batching is invisible in the result. -/
theorem processStream_eq_specTable (cfg : AnalyzerCfg) (c : Collab ι Fr β ρ Img Row)
    (f : Img → Row) (s : List (ι × Fr)) (hb : 0 < cfg.batch_len)
    (hmap : ∀ l, c.classify l cfg.verbose = l.map f) :
    processStream cfg c s = specTable cfg c f s := by
  by_cases hz : (allInfo cfg c s).length = 0
  · have hnil : allInfo cfg c s = [] := List.length_eq_zero.mp hz
    have hdet := no_det_of_allInfo_nil cfg c s hnil
    unfold processStream specTable
    rw [streamFold_no_det cfg c s hdet, if_pos hz]
    rfl
  · have hinfo := streamFold_linfo cfg c s
    have hjoin := streamFold_join cfg c f hmap s
    unfold processStream specTable finalFlush
    rw [if_neg hz]
    set st := streamFold cfg c s with hst
    by_cases hp : 0 < st.lbatch.length
    · rw [if_pos hp]
      show assemble c ⟨[], st.linfo, st.ldf ++ [c.classify st.lbatch cfg.verbose]⟩ = _
      unfold assemble
      rw [if_neg (by simp)]
      simp only [Table.mk.injEq]
      refine ⟨by simp, by rw [hinfo], by rw [hinfo], ?_⟩
      rw [List.flatten_append]
      simp only [List.flatten, List.append_nil]
      rw [hmap]
      exact hjoin
    · rw [if_neg hp]
      have hlb : st.lbatch = [] := List.length_eq_zero.mp (by omega)
      rw [hlb] at hjoin
      simp only [List.map_nil, List.append_nil] at hjoin
      have hldf : ¬ (st.ldf.length = 0) := by
        intro h0
        have h0' : st.ldf = [] := List.length_eq_zero.mp h0
        rw [h0'] at hjoin
        have himgs : allImgs cfg c s = [] := List.map_eq_nil_iff.mp hjoin.symm
        have : (allInfo cfg c s).length = 0 := by
          rw [← allImgs_length, himgs]
          rfl
        exact hz this
      unfold assemble
      rw [if_neg hldf]
      simp only [Table.mk.injEq]
      exact ⟨by simp, by rw [hinfo], by rw [hinfo], hjoin⟩

/-- `consumeDetections` succeeds exactly when the supplied list is at least
as long as the stream, and then the remainder accounts for the surplus. -/
theorem consumeDetections_ok_length :
    ∀ (lbbox : List (List (Detection β ρ))) (stream : List (ι × Fr))
      (pairs : List ((ι × Fr) × List (Detection β ρ)))
      (rem : List (List (Detection β ρ))),
      consumeDetections lbbox stream = .ok (pairs, rem) →
      lbbox.length = stream.length + rem.length := by
  intro lbbox stream
  induction stream generalizing lbbox with
  | nil =>
    intro pairs rem h
    simp only [consumeDetections, Except.ok.injEq, Prod.mk.injEq] at h
    rw [← h.2]
    simp
  | cons p ps ih =>
    intro pairs rem h
    cases lbbox with
    | nil => simp [consumeDetections] at h
    | cons dets rest =>
      simp only [consumeDetections] at h
      cases hc : consumeDetections rest ps with
      | error e => rw [hc] at h; simp at h
      | ok pr =>
        obtain ⟨prs, rm⟩ := pr
        rw [hc] at h
        simp only [Except.ok.injEq, Prod.mk.injEq] at h
        have hrec := ih rest prs rm hc
        simp only [List.length_cons, hrec, h.2]
        omega

end PipelineLemmas

/-! ### Claim theorems -/

section Claims

variable {ι Fr β ρ Img Row : Type}

/-- C1 (counterexample): on a stream with zero detections, the empty table
built by `_process_stream` keeps the detector's auxiliary `eyes` field in
its column sequence — the `eyes` drop of the non-empty path (lines 212-213)
is not applied on the empty path (line 207), contradicting the claimed
schema `frame :: fields-without-eyes :: classifier cols`. -/
theorem c1_counterexample :
    collabEyes.detector 7 false = [] ∧
    (processStream cfgEyes collabEyes streamEyes).frames = [] ∧
    (processStream cfgEyes collabEyes streamEyes).columns =
      ["frame", "bbox", "detect_conf", "eyes", "sex_label"] ∧
    (processStream cfgEyes collabEyes streamEyes).columns ≠
      "frame" :: collabEyes.detectorFields.filter (fun x => x ≠ "eyes") ++
        collabEyes.classifierCols := by
  decide

/-- C1 (amended): for every stream that yields zero detections across all
frames, `_process_stream` returns an empty table with zero rows whose
column sequence is `frame` followed by ALL of the detector's declared
output fields (no auxiliary field is excluded on this path) followed by the
classifier's declared output column names. -/
theorem c1_empty_schema (cfg : AnalyzerCfg) (c : Collab ι Fr β ρ Img Row)
    (s : List (ι × Fr)) (h : ∀ p ∈ s, c.detector p.2 cfg.verbose = []) :
    processStream cfg c s =
      { columns := "frame" :: c.detectorFields ++ c.classifierCols
        frames := []
        dets := []
        rows := [] } := by
  unfold processStream
  rw [streamFold_no_det cfg c s h]
  rfl

/-- C1 witness: the amended schema on a concrete zero-detection stream. -/
theorem c1_empty_schema_witness :
    processStream cfgEyes collabEyes streamEyes =
      { columns := "frame" :: collabEyes.detectorFields ++ collabEyes.classifierCols
        frames := []
        dets := []
        rows := [] } :=
  c1_empty_schema cfgEyes collabEyes streamEyes (by decide)

/-- C2 (counterexample): constructed with default arguments
(`bbox_scale=None`, `bbox2square=None`) on top of a classifier that demands
squarification and scale 2, `VideoPrecomputedDetection` keeps the
classifier's instructions, and processing passes `bbox2square = true` and
`bbox_scale = 2` to the preprocessor — rescaling/squarification is NOT
disabled by default. -/
theorem c2_counterexample :
    cfgSq.bbox2square = true ∧
    cfgSq.bbox_scale = 2 ∧
    (processStream cfgSq collabSq streamSq).rows = [(true, (2 : ℚ))] := by
  decide

/-- C2 (amended): by default (`bbox_scale=None`, `bbox2square=None`),
`VideoPrecomputedDetection` uses the classifier's declared `bbox_scale` and
`bbox2square` for processing; a caller-supplied value overrides the
corresponding attribute (and only it) at construction time. -/
theorem c2_bbox_defaults (cls : FaceClassifierProps) (verbose : Bool) :
    (VideoPrecomputedDetection_init cls verbose none none).bbox_scale = cls.bbox_scale ∧
    (VideoPrecomputedDetection_init cls verbose none none).bbox2square = cls.bbox2square ∧
    (∀ (s : ℚ) (b : Bool),
      (VideoPrecomputedDetection_init cls verbose (some s) (some b)).bbox_scale = s ∧
      (VideoPrecomputedDetection_init cls verbose (some s) (some b)).bbox2square = b) ∧
    (∀ s : ℚ,
      (VideoPrecomputedDetection_init cls verbose (some s) none).bbox_scale = s ∧
      (VideoPrecomputedDetection_init cls verbose (some s) none).bbox2square =
        cls.bbox2square) ∧
    (∀ b : Bool,
      (VideoPrecomputedDetection_init cls verbose none (some b)).bbox2square = b ∧
      (VideoPrecomputedDetection_init cls verbose none (some b)).bbox_scale =
        cls.bbox_scale) :=
  ⟨rfl, rfl, fun _ _ => ⟨rfl, rfl⟩, fun _ => ⟨rfl, rfl⟩, fun _ => ⟨rfl, rfl⟩⟩

/-- C3: for a stream with at least one detection and a classifier returning
one row per input image, the result table's three groups are index-aligned:
the frame-identifier and detection groups list the discovery-order metadata
(frame order, then within-frame emission order), and all three groups have
exactly one row per (frame-id, detection) pair. -/
theorem c3_row_alignment (cfg : AnalyzerCfg) (c : Collab ι Fr β ρ Img Row)
    (s : List (ι × Fr)) (hb : 0 < cfg.batch_len)
    (hlen : ∀ l, (c.classify l cfg.verbose).length = l.length)
    (hne : allInfo cfg c s ≠ []) :
    (processStream cfg c s).frames = (allInfo cfg c s).map Prod.fst ∧
    (processStream cfg c s).dets = (allInfo cfg c s).map Prod.snd ∧
    (processStream cfg c s).frames.length = (allInfo cfg c s).length ∧
    (processStream cfg c s).dets.length = (allInfo cfg c s).length ∧
    (processStream cfg c s).rows.length = (allInfo cfg c s).length := by
  have hinfo := streamFold_linfo cfg c s
  have hcnt := streamFold_len cfg c hlen s
  unfold processStream finalFlush
  set st := streamFold cfg c s with hst
  by_cases hp : 0 < st.lbatch.length
  · rw [if_pos hp]
    show (assemble c ⟨[], st.linfo, st.ldf ++ [c.classify st.lbatch cfg.verbose]⟩).frames
          = _ ∧ _
    unfold assemble
    rw [if_neg (by simp)]
    have hrows : (st.ldf ++ [c.classify st.lbatch cfg.verbose]).flatten.length =
        (allInfo cfg c s).length := by
      rw [List.flatten_append]
      simp only [List.flatten, List.append_nil, List.length_append, hlen]
      rw [← allImgs_length]
      omega
    refine ⟨by rw [hinfo], by rw [hinfo], ?_, ?_, hrows⟩
    · simp [hinfo]
    · simp [hinfo]
  · rw [if_neg hp]
    have hlb : st.lbatch.length = 0 := by omega
    have hfl : st.ldf.flatten.length = (allInfo cfg c s).length := by
      rw [← allImgs_length]
      omega
    have hldf : ¬ (st.ldf.length = 0) := by
      intro h0
      rw [List.length_eq_zero.mp h0] at hfl
      exact hne (List.length_eq_zero.mp (by simpa using hfl.symm))
    unfold assemble
    rw [if_neg hldf]
    refine ⟨by rw [hinfo], by rw [hinfo], ?_, ?_, hfl⟩
    · simp [hinfo]
    · simp [hinfo]

/-- C3 witness: the alignment on the concrete 3-frame example scenario. -/
theorem c3_row_alignment_witness :
    (processStream cfgEx collabEx streamEx).frames =
        (allInfo cfgEx collabEx streamEx).map Prod.fst ∧
    (processStream cfgEx collabEx streamEx).dets =
        (allInfo cfgEx collabEx streamEx).map Prod.snd ∧
    (processStream cfgEx collabEx streamEx).frames.length =
        (allInfo cfgEx collabEx streamEx).length ∧
    (processStream cfgEx collabEx streamEx).dets.length =
        (allInfo cfgEx collabEx streamEx).length ∧
    (processStream cfgEx collabEx streamEx).rows.length =
        (allInfo cfgEx collabEx streamEx).length :=
  c3_row_alignment cfgEx collabEx streamEx (by decide) (fun _ => rfl) (by decide)

/-- C4: for a fixed stream, detector and classifier — the classifier
returning one row per input image via `f`, independent of batch
composition — any two positive batch lengths produce identical result
tables. -/
theorem c4_batch_invariance (cfg : AnalyzerCfg) (c : Collab ι Fr β ρ Img Row)
    (s : List (ι × Fr)) (f : Img → Row) (b1 b2 : ℕ) (hb1 : 0 < b1) (hb2 : 0 < b2)
    (hmap : ∀ l, c.classify l cfg.verbose = l.map f) :
    processStream { cfg with batch_len := b1 } c s =
      processStream { cfg with batch_len := b2 } c s := by
  rw [processStream_eq_specTable { cfg with batch_len := b1 } c f s hb1 hmap,
    processStream_eq_specTable { cfg with batch_len := b2 } c f s hb2 hmap]
  rfl

/-- C4 witness: batch lengths 1 and 3 on the concrete example scenario. -/
theorem c4_batch_invariance_witness :
    processStream { cfgEx with batch_len := 1 } collabEx streamEx =
      processStream { cfgEx with batch_len := 3 } collabEx streamEx :=
  c4_batch_invariance cfgEx collabEx streamEx id 1 3 (by decide) (by decide)
    (fun l => (List.map_id l).symm)

/-- C5: with a positive `batch_len`, (i) a buffer of at most `batch_len`
pending images is never flushed (strict threshold); (ii) each streaming
flush classifies exactly the first `batch_len` pending images, FIFO; (iii)
after any number of full frame iterations at most `batch_len` images are
pending, so the final post-stream flush has size at most `batch_len`; (iv)
mid-frame, the buffer is bounded by `batch_len` plus the detections of the
frame currently being processed, independent of stream length. -/
theorem c5_buffer_invariants (cfg : AnalyzerCfg) (c : Collab ι Fr β ρ Img Row)
    (hb : 0 < cfg.batch_len) :
    (∀ (lb : List Img) (ldf : List (List Row)), lb.length ≤ cfg.batch_len →
      flushLoop cfg.batch_len (fun l => c.classify l cfg.verbose) lb ldf = (lb, ldf)) ∧
    (∀ (lb : List Img) (ldf : List (List Row)), cfg.batch_len < lb.length →
      flushLoop cfg.batch_len (fun l => c.classify l cfg.verbose) lb ldf =
        flushLoop cfg.batch_len (fun l => c.classify l cfg.verbose)
          (lb.drop cfg.batch_len)
          (ldf ++ [c.classify (lb.take cfg.batch_len) cfg.verbose])) ∧
    (∀ s : List (ι × Fr), (streamFold cfg c s).lbatch.length ≤ cfg.batch_len) ∧
    (∀ (s : List (ι × Fr)) (p : ι × Fr),
      (frameAccum cfg c (streamFold cfg c s) p).lbatch.length ≤
        cfg.batch_len + (c.detector p.2 cfg.verbose).length) := by
  refine ⟨fun lb ldf h => flushLoop_of_le cfg.batch_len _ lb ldf h,
    fun lb ldf h => flushLoop_step cfg.batch_len hb _ lb ldf h,
    fun s => streamFold_lbatch_le cfg c hb s,
    fun s p => ?_⟩
  rw [frameAccum_spec]
  simp only [List.length_append]
  have h1 := streamFold_lbatch_le cfg c hb s
  have h2 : (frameImgs cfg c p).length = (c.detector p.2 cfg.verbose).length := by
    simp [frameImgs]
  omega

/-- C5 witness: the post-frame buffer bound on the concrete example. -/
theorem c5_buffer_invariants_witness :
    (streamFold cfgEx collabEx streamEx).lbatch.length ≤ cfgEx.batch_len :=
  (c5_buffer_invariants cfgEx collabEx (by decide)).2.2.1 streamEx

/-- C6: on the 3-frame synthetic stream (0, 2 and 1 detections) with
`batch_len = 2`, no classifier invocation has happened after frame 2 (the
buffer holds exactly 2 entries, not above the strict threshold); over the
whole run the classifier is invoked exactly twice, the first time on 2
images; and the final table has exactly 3 rows in discovery order
(frame2/det0, frame2/det1, frame3/det0). -/
theorem c6_example_scenario :
    (streamFold cfgEx collabEx (streamEx.take 2)).ldf = [] ∧
    (streamFold cfgEx collabEx (streamEx.take 2)).lbatch.length = 2 ∧
    (finalFlush cfgEx collabEx (streamFold cfgEx collabEx streamEx)).ldf =
      [[20, 21], [30]] ∧
    (finalFlush cfgEx collabEx (streamFold cfgEx collabEx streamEx)).ldf.length = 2 ∧
    processStream cfgEx collabEx streamEx =
      { columns := ["frame", "bbox", "detect_conf", "sex_label"]
        frames := [2, 2, 3]
        dets := [⟨20, 0⟩, ⟨21, 1⟩, ⟨30, 0⟩]
        rows := [20, 21, 30] } := by
  decide

/-- C7: if the bounding-box list supplied to
`VideoPrecomputedDetection.__call__` has a length different from the number
of frames iterated, the call fails (list exhausted mid-stream, or the final
`assert len(detector.lbbox) == 0` post-condition) and no table is
returned. -/
theorem c7_precomputed_mismatch (cfg : AnalyzerCfg) (c : Collab ι Fr β ρ Img Row)
    (lbbox : List (List (Detection β ρ))) (stream : List (ι × Fr))
    (h : lbbox.length ≠ stream.length) :
    exceptOk (VideoPrecomputedDetection_call cfg c lbbox stream) = false := by
  unfold VideoPrecomputedDetection_call
  cases hc : consumeDetections lbbox stream with
  | error e => simp [exceptOk]
  | ok pr =>
    obtain ⟨pairs, rem⟩ := pr
    have hl := consumeDetections_ok_length lbbox stream pairs rem hc
    have hrem : ¬ (rem.length = 0) := by omega
    simp [hrem, exceptOk]

/-- C7 witness: two supplied entries against a one-frame stream fail. -/
theorem c7_precomputed_mismatch_witness :
    exceptOk (VideoPrecomputedDetection_call cfgEx collabEx
      [[⟨1, 0⟩], [⟨2, 0⟩]] [(0, 1)]) = false :=
  c7_precomputed_mismatch cfgEx collabEx [[⟨1, 0⟩], [⟨2, 0⟩]] [(0, 1)] (by decide)

/-- C8: `FaceAnalyzer.__init__`'s validation succeeds exactly when `verbose`
is a `bool` and `batch_len` is a positive integer (in Python's sense:
`isinstance(batch_len, int)`, which `bool` also satisfies, with a positive
value); in particular every positive `int` with any `bool` passes and both
values are stored on the instance, and every other combination fails the
assertion immediately. -/
theorem c8_init_validation :
    ∀ batch_len verbose : PyVal,
      ((FaceAnalyzer_checkArgs batch_len verbose).isSome = true ↔
        (verbose.isinstance_bool = true ∧ batch_len.isinstance_int = true ∧
          batch_len.gt_zero = true)) ∧
      (∀ n : ℤ, 0 < n → ∀ b : Bool,
        FaceAnalyzer_checkArgs (.int n) (.bool b) = some (.int n, .bool b)) := by
  intro bl vb
  constructor
  · unfold FaceAnalyzer_checkArgs
    by_cases h1 : vb.isinstance_bool = true <;>
      by_cases h2 : bl.isinstance_int = true <;>
      by_cases h3 : bl.gt_zero = true <;>
      simp [h1, h2, h3]
  · intro n hn b
    simp [FaceAnalyzer_checkArgs, PyVal.isinstance_bool, PyVal.isinstance_int,
      PyVal.gt_zero, hn]

/-- C8 witness: `batch_len = 3`, `verbose = True` passes and is stored. -/
theorem c8_init_validation_witness :
    FaceAnalyzer_checkArgs (.int 3) (.bool true) = some (.int 3, .bool true) :=
  (c8_init_validation (.int 3) (.bool true)).2 3 (by decide) true

/-- C9: `_process_stream` leaves the analyzer attributes unchanged (the
source method performs no attribute assignment), so running it twice in
sequence on the same analyzer instance — the second run receiving the state
left by the first — yields identical result tables. -/
theorem c9_idempotent (cfg : AnalyzerCfg) (c : Collab ι Fr β ρ Img Row)
    (s : List (ι × Fr)) :
    (processStreamSt cfg c s).2 = cfg ∧
    (processStreamSt (processStreamSt cfg c s).2 c s).1 = (processStreamSt cfg c s).1 :=
  ⟨rfl, rfl⟩

/-- C10: `ImageAnalyzer.__call__` on a single path string produces exactly
the result of calling it on the one-element list of that path — the string
is wrapped into a singleton list before building the image stream, with no
other difference. -/
theorem c10_image_singleton (cfg : AnalyzerCfg) (c : Collab String Fr β ρ Img Row)
    (image_iterator : List String → Bool → List (String × Fr)) (p : String) :
    ImageAnalyzer_call cfg c image_iterator (.single p) =
      ImageAnalyzer_call cfg c image_iterator (.many [p]) :=
  rfl

end Claims

end InaFaceAnalyzer
